import Mathlib

/-
Verification of the benchmarker state/consistency engine of the
isucon8-qualify-fix repository (src/bench/src/bench/scenario.go).

The Go source is shallowly embedded: the scenario functions become pure Lean
functions over an explicit State record.  Go machine integers (uint) are
modelled as Nat; the uint(int) conversion wraps modulo 2^64.  Time values are
modelled as Int (the Go zero time is the integer 0).  A fallible Go function
returning (T, error) becomes a Lean function into Except CheckErr T.  The
ambient clock time.Now() is passed explicitly as a parameter named now.
HTTP calls issued through Checker.Play are modelled by passing the outcome of
the call (including the data extracted by the CheckFunc) as an explicit
argument of type Except CheckErr alpha.

Functions of the repository that live outside scenario.go (state.go, the
parameter package) are not part of src/; where needed they are modelled from
the specification and marked with a doc comment starting with the words
Modelled from the spec.
-/

/-- Outcome classification of a check: a fatal benchmarking error carrying a
message, a Go runtime panic (out-of-range index or nil dereference), or the
io.EOF sentinel returned by the CSV reader. -/
inductive CheckErr where
  | fatal (msg : String) : CheckErr
  | panicked : CheckErr
  | eofErr : CheckErr
  deriving Repr, DecidableEq

deriving instance DecidableEq for Except

/-- JsonEvent as consumed by checkEventsList; only the ID field is read by the
live code (the other fields appear only in commented-out checks). -/
structure JsonEvent where
  ID : Nat
  deriving Repr, DecidableEq

/-- The benchmarker Event entity, cf. spec section 3. -/
structure Event where
  ID : Nat
  Price : Nat
  PublicFg : Bool
  ClosedFg : Bool
  CreatedAt : Int
  Remains : Int
  deriving Repr, DecidableEq

/-- One sheet kind of the static data set (rank with its price). -/
structure SheetKind where
  Rank : String
  Price : Nat
  deriving Repr, DecidableEq

/-- Reservation entity.  ID, EventID, UserID, SheetRank, SheetNum and
CreatedAt mirror the Go struct fields set in scenario.go.  The three
cancellation fields model the cancellation lifecycle: canceledAt is the commit
time of a cancellation (none while active), cancelLogAt / cancelLogRemovedAt
bracket the pending-cancel log window of the reservation.  They are modelled
from the spec because the Reservation methods live in state.go, outside
src/. -/
structure Reservation where
  ID : Nat
  EventID : Nat
  UserID : Nat
  SheetRank : String
  SheetNum : Nat
  CreatedAt : Int := 0
  canceledAt : Option Int := none
  cancelLogAt : Option Int := none
  cancelLogRemovedAt : Option Int := none
  deriving Repr, DecidableEq

/-- Modelled from the spec: Reservation.Canceled is defined in state.go (not
under src/).  Per the spec a reservation is definitely canceled with respect
to timeBefore when its cancellation was committed strictly before the request
window opened. -/
def Reservation.Canceled (r : Reservation) (timeBefore : Int) : Bool :=
  match r.canceledAt with
  | some c => decide (c < timeBefore)
  | none => false

/-- Modelled from the spec: Reservation.MaybeCanceled is defined in state.go
(not under src/).  Per the spec a reservation is possibly canceled when its
pending-cancel log entry overlapped the request window: the entry exists and
was either never removed or removed at or after timeBefore. -/
def Reservation.MaybeCanceled (r : Reservation) (timeBefore : Int) : Bool :=
  match r.cancelLogAt with
  | none => false
  | some _ =>
    match r.cancelLogRemovedAt with
    | none => true
    | some e => decide (timeBefore ≤ e)

/-- Parsed CSV report row, cf. spec section 3; used only for comparison. -/
structure ReportRecord where
  ReservationID : Nat
  EventID : Nat
  SheetRank : String
  SheetNum : Nat
  UserID : Nat
  CanceledAt : Int
  deriving Repr, DecidableEq

/-- Raw CSV row with the results of the external parsing primitives already
applied (strconv.Atoi for the numeric columns, time.Parse for the timestamp
columns): none models a parse error.  For canceled_at, some none models the
empty string (active reservation, Go zero time) and some (some t) a parsed
timestamp t. -/
structure CsvRow where
  reservationID : Option Int
  eventID : Option Int
  rank : String
  num : Option Int
  price : Option Int
  userID : Option Int
  soldAt : Option Int
  canceledAt : Option (Option Int)
  deriving Repr, DecidableEq

/-- JsonUser identity returned by the login endpoints and embedded in the
data-login-user attribute. -/
structure JsonUser where
  ID : Nat
  Nickname : String
  deriving Repr, DecidableEq

/-- Online status record of an actor (Go struct UserStatus with field Online). -/
structure ActorStatus where
  Online : Bool
  deriving Repr, DecidableEq

/-- Ordinary application user actor. -/
structure AppUser where
  ID : Nat
  Nickname : String
  LoginName : String
  Password : String
  Status : ActorStatus
  deriving Repr, DecidableEq

/-- Administrator actor. -/
structure Administrator where
  ID : Nat
  Nickname : String
  LoginName : String
  Password : String
  Status : ActorStatus
  deriving Repr, DecidableEq

/-- The JSON body of a successful reservation response. -/
structure JsonReservation where
  ReservationID : Nat
  SheetRank : String
  SheetNum : Nat
  deriving Repr, DecidableEq

/-- One (event, rank) probing slot handed out by the pool. -/
structure EventSheet where
  EventID : Nat
  Rank : String
  Num : Nat
  deriving Repr, DecidableEq

/-- The shared benchmarker state (ledger): events, committed reservations, the
two pending-operation logs keyed by a monotonically increasing log id, and the
static sheet-kind data set (package global DataSet.SheetKinds, folded into the
state record here). -/
structure State where
  events : List Event
  reservations : List Reservation
  reserveLog : List (Nat × Reservation)
  cancelLog : List (Nat × Reservation)
  nextLogID : Nat
  sheetKinds : List SheetKind
  deriving Repr, DecidableEq

/-- Modelled from the spec: parameter.AllowableDelay, the bounded
eventual-consistency tolerance (a fixed duration, e.g. 1s); time is counted in
milliseconds here. -/
def AllowableDelay : Int := 1000

/-- Modelled from the spec: the sentinel seat number marking a slot that is
not presently tied to an outstanding reservation. -/
def NonReservedNum : Nat := 0

/-- Modelled from the spec: State.GetEvents (state.go, not under src/) returns
the ledger events. -/
def State.GetEvents (s : State) : List Event :=
  s.events

/-- Modelled from the spec: FilterPublicEvents (state.go, not under src/)
keeps the events visible to anonymous users: published and not closed. -/
def FilterPublicEvents (events : List Event) : List Event :=
  events.filter (fun e => e.PublicFg && !e.ClosedFg)

/-- Modelled from the spec: State.FindEventByID (state.go, not under src/). -/
def State.FindEventByID (s : State) (id : Nat) : Option Event :=
  s.events.find? (fun e => e.ID == id)

/-- Modelled from the spec: GetSheetKindByRank looks the rank up in the static
data set; Go returns nil when the rank is unknown. -/
def GetSheetKindByRank (s : State) (rank : String) : Option SheetKind :=
  s.sheetKinds.find? (fun k => k.Rank == rank)

/-- Modelled from the spec: State.AppendReserveLog records a provisional
reservation under a fresh monotonic log id and returns that id. -/
def State.AppendReserveLog (s : State) (r : Reservation) : Nat × State :=
  (s.nextLogID,
   { s with reserveLog := s.reserveLog ++ [(s.nextLogID, r)],
            nextLogID := s.nextLogID + 1 })

/-- Modelled from the spec: State.DeleteReserveLog removes the pending entry
with the given log id. -/
def State.DeleteReserveLog (s : State) (logID : Nat) (_r : Reservation) : State :=
  { s with reserveLog := s.reserveLog.filter (fun p => decide (p.1 ≠ logID)) }

/-- Modelled from the spec: State.AppendCancelLog, cf. AppendReserveLog. -/
def State.AppendCancelLog (s : State) (r : Reservation) : Nat × State :=
  (s.nextLogID,
   { s with cancelLog := s.cancelLog ++ [(s.nextLogID, r)],
            nextLogID := s.nextLogID + 1 })

/-- Modelled from the spec: State.DeleteCancelLog removes the pending entry
with the given log id. -/
def State.DeleteCancelLog (s : State) (logID : Nat) (_r : Reservation) : State :=
  { s with cancelLog := s.cancelLog.filter (fun p => decide (p.1 ≠ logID)) }

/-- Modelled from the spec: State.CommitReservation merges a completed
reservation into the permanent set, guarded against an already present id. -/
def State.CommitReservation (s : State) (r : Reservation) : State :=
  if s.reservations.any (fun x => x.ID == r.ID) then s
  else { s with reservations := s.reservations ++ [r] }

/-- Modelled from the spec: State.BeginCancelReservation returns the stored
reservation with the given id. -/
def State.BeginCancelReservation (s : State) (id : Nat) : Option Reservation :=
  s.reservations.find? (fun x => x.ID == id)

/-- Modelled from the spec: State.CommitCancelReservation marks the stored
reservation as canceled at the current time. -/
def State.CommitCancelReservation (s : State) (r : Reservation) (now : Int) : State :=
  { s with reservations :=
      s.reservations.map (fun x =>
        if x.ID == r.ID then { x with canceledAt := some now } else x) }

/-- Decrement of event.Remains performed under the per-event lock at the end
of reserveSheet. -/
def State.decrRemains (s : State) (eventID : Nat) : State :=
  { s with events :=
      s.events.map (fun e =>
        if e.ID == eventID then { e with Remains := e.Remains - 1 } else e) }

/-- Increment of event.Remains performed under the per-event lock at the end
of cancelSheet. -/
def State.incrRemains (s : State) (eventID : Nat) : State :=
  { s with events :=
      s.events.map (fun e =>
        if e.ID == eventID then { e with Remains := e.Remains + 1 } else e) }

/-- Go uint(i) conversion for an int obtained from strconv.Atoi: wraps modulo
2 to the 64. -/
def uintOf (i : Int) : Nat :=
  (i % (2 : Int) ^ 64).toNat

/-- Error message of checkEventsList for a wrong event order (the Japanese
message of the source is transliterated). -/
def eventsOrderMsg : String := "event order is wrong"

/-- Error message of checkEventsList for a wrong event count. -/
def eventsCountMsg : String := "event count is wrong"

/-- sort.SliceIsSorted with the comparison on event IDs: the observed list is
non-decreasing in ID. -/
def isSortedByID : List JsonEvent → Bool
  | [] => true
  | [_] => true
  | a :: b :: rest => decide (a.ID ≤ b.ID) && isSortedByID (b :: rest)

/-- The missed-events loop of checkEventsList (scenario.go lines 74-80),
operating on the reversed expected list: the Go loop walks i from
len(expected)-1 down to 1, breaks at the first event whose ID is at most the
last observed ID, and collects the events above the break point; index 0 is
never examined, hence the singleton base case. -/
def missedRevLoop (lastObsID : Nat) : List Event → List Event
  | [] => []
  | [_] => []
  | e :: rest =>
    if e.ID ≤ lastObsID then [] else e :: missedRevLoop lastObsID rest

/-- The surplus-trimming loop of checkEventsList (scenario.go lines 91-96),
operating on the reversed observed list: events are dropped from the tail
while their ID exceeds the last expected ID; the loop stops at index 0. -/
def trimRevLoop (lastExpID : Nat) : List JsonEvent → List JsonEvent
  | [] => []
  | [e] => [e]
  | e :: rest =>
    if e.ID ≤ lastExpID then e :: rest else trimRevLoop lastExpID rest

/-- checkEventsList (scenario.go lines 61-137).  The observed list must be
sorted by ID and non-empty.  A deficit against the expected public events is
tolerated when every event of the computed missed tail was created within
AllowableDelay of now.  A surplus trims trailing newer events into a local
variable; the subsequent positional comparisons of the source are commented
out, so the surplus branch only evaluates the last expected ID (a Go panic
when the expected list is empty and at least two events were observed) and
then succeeds. -/
def checkEventsList (now : Int) (state : State) (events : List JsonEvent) :
    Except CheckErr Unit :=
  if !isSortedByID events then .error (.fatal eventsOrderMsg)
  else
    let expected := FilterPublicEvents state.GetEvents
    if events.length = 0 then .error (.fatal eventsCountMsg)
    else if events.length < expected.length then
      match events.getLast? with
      | none => .error .panicked
      | some lastObs =>
        let missed := (missedRevLoop lastObs.ID expected.reverse).reverse
        let threshold := now - AllowableDelay
        if missed.any (fun e => decide (e.CreatedAt < threshold)) then
          .error (.fatal eventsCountMsg)
        else .ok ()
    else if expected.length < events.length then
      if events.length ≤ 1 then .ok ()
      else
        match expected.getLast? with
        | none => .error .panicked
        | some lastExp =>
          let _trimmed := (trimRevLoop lastExp.ID events.reverse).reverse
          .ok ()
    else .ok ()

/-- An entirely empty state, used as a base for concrete instances. -/
def emptyState : State :=
  { events := []
    reservations := []
    reserveLog := []
    cancelLog := []
    nextLogID := 0
    sheetKinds := [] }

/-- Error message of the report checks (the Japanese message of the source is
transliterated). -/
def reportMsg : String := "report is wrong"

/-- Lookup in the reservationsBeforeRequest map (Go map modelled as an
association list keyed by reservation id). -/
def lookupRes (m : List (Nat × Reservation)) (k : Nat) : Option Reservation :=
  (m.find? (fun p => p.1 == k)).map Prod.snd

/-- checkReportRecord (scenario.go lines 1305-1422).  The row argument is none
at end of input, mirroring the io.EOF return of reader.Read.  Every parse
failure of the source returns the same fatal message, so the seven parse
matches are folded into one.  The line argument is used only for logging in
the source and the reservationsAfterResponse argument is received but never
read, exactly as in the source. -/
def checkReportRecord (s : State) (row? : Option CsvRow) (line : Nat)
    (timeBefore : Int) (reservationsBeforeRequest : List (Nat × Reservation))
    (reservationsAfterResponse : List (Nat × Reservation)) :
    Except CheckErr ReportRecord :=
  match row? with
  | none => .error .eofErr
  | some row =>
    match row.reservationID, row.eventID, row.num, row.price, row.userID,
        row.soldAt, row.canceledAt with
    | some reservationID, some eventID, some sheetNum, some price,
      some userID, some _, some cancOpt =>
      let sheetRank := row.rank
      let canceledAt : Int := cancOpt.getD 0
      match s.FindEventByID (uintOf eventID) with
      | none => .error (.fatal reportMsg)
      | some event =>
        match GetSheetKindByRank s sheetRank with
        | none => .error .panicked
        | some kind =>
          if uintOf price ≠ (event.Price + kind.Price) % 2 ^ 64 then
            .error (.fatal reportMsg)
          else
            let record : ReportRecord :=
              { ReservationID := uintOf reservationID
                EventID := uintOf eventID
                SheetRank := sheetRank
                SheetNum := uintOf sheetNum
                UserID := uintOf userID
                CanceledAt := canceledAt }
            match lookupRes reservationsBeforeRequest record.ReservationID with
            | none => .ok record
            | some reservationBeforeRequest =>
              if reservationBeforeRequest.ID ≠ record.ReservationID ∨
                  reservationBeforeRequest.EventID ≠ record.EventID ∨
                  reservationBeforeRequest.UserID ≠ record.UserID ∨
                  reservationBeforeRequest.SheetRank ≠ record.SheetRank ∨
                  reservationBeforeRequest.SheetNum ≠ record.SheetNum then
                .error (.fatal reportMsg)
              else if reservationBeforeRequest.Canceled timeBefore then
                if record.CanceledAt = 0 then .error (.fatal reportMsg)
                else .ok record
              else if reservationBeforeRequest.MaybeCanceled timeBefore then
                .ok record
              else .ok record
    | _, _, _, _, _, _, _ => .error (.fatal reportMsg)

/-- A CSV row all of whose numeric and timestamp fields parsed successfully
(canc none models the empty canceled_at column). -/
def mkRow (rid eid : Int) (rank : String) (num price uid : Int) (sold : Int)
    (canc : Option Int) : CsvRow :=
  { reservationID := some rid
    eventID := some eid
    rank := rank
    num := some num
    price := some price
    userID := some uid
    soldAt := some sold
    canceledAt := some canc }

/-- The ReportRecord produced by checkReportRecord for a fully parsed row. -/
def recordOf (rid eid : Int) (rank : String) (num uid : Int)
    (canc : Option Int) : ReportRecord :=
  { ReservationID := uintOf rid
    EventID := uintOf eid
    SheetRank := rank
    SheetNum := uintOf num
    UserID := uintOf uid
    CanceledAt := canc.getD 0 }

/-- Kinds of HTTP calls relevant to the Online-flag discipline. -/
inductive CallKind where
  | userLogin
  | userLogout
  | adminLogin
  | adminLogout
  | other
  deriving Repr, DecidableEq

/-- Observable events of a scenario execution: an HTTP call (with its success
flag) or a mutation of an Online status flag. -/
inductive Ev where
  | call (k : CallKind) (ok : Bool)
  | setOnline (b : Bool)
  deriving Repr, DecidableEq

/-- True when the outcome of a Play call is success. -/
def isOkU : Except CheckErr Unit → Bool
  | .ok _ => true
  | .error _ => false

/-- Updates the Online flag of a user. -/
def setUserOnline (u : AppUser) (b : Bool) : AppUser :=
  { u with Status := { Online := b } }

/-- Updates the Online flag of an administrator. -/
def setAdminOnline (a : Administrator) (b : Bool) : Administrator :=
  { a with Status := { Online := b } }

/-- loginAppUser (scenario.go lines 1626-1648): returns immediately when the
user is already online; otherwise plays the login call and marks the user
online only on success.  The third component is the emitted event trace. -/
def loginAppUser (play : Except CheckErr Unit) (user : AppUser) :
    Except CheckErr Unit × AppUser × List Ev :=
  if user.Status.Online then (.ok (), user, [])
  else
    match play with
    | .error e => (.error e, user, [.call .userLogin false])
    | .ok _ => (.ok (), setUserOnline user true, [.call .userLogin true, .setOnline true])

/-- logoutAppUser (scenario.go lines 1650-1667). -/
def logoutAppUser (play : Except CheckErr Unit) (user : AppUser) :
    Except CheckErr Unit × AppUser × List Ev :=
  if !user.Status.Online then (.ok (), user, [])
  else
    match play with
    | .error e => (.error e, user, [.call .userLogout false])
    | .ok _ => (.ok (), setUserOnline user false, [.call .userLogout true, .setOnline false])

/-- loginAdministratorWithTimeout (scenario.go lines 1582-1605); the timeout
is forwarded to Play and does not influence the control flow. -/
def loginAdministratorWithTimeout (play : Except CheckErr Unit)
    (admin : Administrator) (_timeout : Int) :
    Except CheckErr Unit × Administrator × List Ev :=
  if admin.Status.Online then (.ok (), admin, [])
  else
    match play with
    | .error e => (.error e, admin, [.call .adminLogin false])
    | .ok _ => (.ok (), setAdminOnline admin true, [.call .adminLogin true, .setOnline true])

/-- loginAdministrator (scenario.go lines 1578-1580). -/
def loginAdministrator (play : Except CheckErr Unit) (admin : Administrator) :
    Except CheckErr Unit × Administrator × List Ev :=
  loginAdministratorWithTimeout play admin 0

/-- logoutAdministrator (scenario.go lines 1607-1624). -/
def logoutAdministrator (play : Except CheckErr Unit) (admin : Administrator) :
    Except CheckErr Unit × Administrator × List Ev :=
  if !admin.Status.Online then (.ok (), admin, [])
  else
    match play with
    | .error e => (.error e, admin, [.call .adminLogout false])
    | .ok _ => (.ok (), setAdminOnline admin false, [.call .adminLogout true, .setOnline false])

/-- CheckLogin (scenario.go lines 589-650), after the pop of the user: the
session cookie is reset and the Online flag is assigned false before any call
is issued; then login, logout and the three negative checks are played in
order, aborting at the first error.  Each of the three negative checks is an
HTTP call of kind other. -/
def CheckLogin (user : AppUser)
    (pLogin pLogout pLogoutAgain pGhostUser pWrongPass : Except CheckErr Unit) :
    Except CheckErr Unit × AppUser × List Ev :=
  let user0 := setUserOnline user false
  let tr0 : List Ev := [.setOnline false]
  match loginAppUser pLogin user0 with
  | (.error e, u1, tr1) => (.error e, u1, tr0 ++ tr1)
  | (.ok _, u1, tr1) =>
    match logoutAppUser pLogout u1 with
    | (.error e, u2, tr2) => (.error e, u2, tr0 ++ tr1 ++ tr2)
    | (.ok _, u2, tr2) =>
      let base := tr0 ++ tr1 ++ tr2
      match pLogoutAgain with
      | .error e => (.error e, u2, base ++ [.call .other false])
      | .ok _ =>
        match pGhostUser with
        | .error e => (.error e, u2, base ++ [.call .other true, .call .other false])
        | .ok _ =>
          match pWrongPass with
          | .error e =>
            (.error e, u2,
             base ++ [.call .other true, .call .other true, .call .other false])
          | .ok _ =>
            (.ok (), u2,
             base ++ [.call .other true, .call .other true, .call .other true])

/-- Decides whether a setOnline event is justified by the immediately
preceding successful call: setting the flag requires a successful login,
clearing it a successful logout. -/
def setMatchesCall : Bool → CallKind → Bool
  | true, .userLogin => true
  | true, .adminLogin => true
  | false, .userLogout => true
  | false, .adminLogout => true
  | _, _ => false

/-- Walks a trace remembering the previous event; every setOnline event must
immediately follow a successful call of the matching kind. -/
def specFreeFrom : Option Ev → List Ev → Bool
  | _, [] => true
  | prev, .setOnline b :: rest =>
    (match prev with
     | some (.call k true) => setMatchesCall b k
     | _ => false) && specFreeFrom (some (.setOnline b)) rest
  | _, e :: rest => specFreeFrom (some e) rest

/-- A trace is free of speculative Online-flag mutations when every mutation
immediately follows a successful login or logout call of the matching kind. -/
def specFree (tr : List Ev) : Bool :=
  specFreeFrom none tr

/-- Sequential composition of two loginAppUser calls with the error
propagation of the calling scenarios: the second call is reached only when
the first one succeeded. -/
def loginAppUserTwice (p1 p2 : Except CheckErr Unit) (user : AppUser) :
    Except CheckErr Unit × AppUser × List Ev :=
  match loginAppUser p1 user with
  | (.ok _, u1, tr1) =>
    match loginAppUser p2 u1 with
    | (r2, u2, tr2) => (r2, u2, tr1 ++ tr2)
  | (.error e, u1, tr1) => (.error e, u1, tr1)

/-- Sequential composition of two loginAdministratorWithTimeout calls. -/
def loginAdministratorTwice (p1 p2 : Except CheckErr Unit)
    (admin : Administrator) (t1 t2 : Int) :
    Except CheckErr Unit × Administrator × List Ev :=
  match loginAdministratorWithTimeout p1 admin t1 with
  | (.ok _, a1, tr1) =>
    match loginAdministratorWithTimeout p2 a1 t2 with
    | (r2, a2, tr2) => (r2, a2, tr1 ++ tr2)
  | (.error e, a1, tr1) => (.error e, a1, tr1)

/-- The provisional reservation recorded by reserveSheet before the HTTP call
(scenario.go line 1739). -/
def pendingReservation (userID : Nat) (es : EventSheet) : Reservation :=
  { ID := 0
    EventID := es.EventID
    UserID := userID
    SheetRank := es.Rank
    SheetNum := 0 }

/-- reserveSheet (scenario.go lines 1734-1770).  The play argument carries the
outcome of the reserve call: on success the reservation id and sheet number
extracted from the response by checkJsonReservationResponse.  On error the
function returns at once, in particular without deleting the pending reserve
log entry.  On success the log entry is deleted, the sheet number is stored in
the event sheet, the reservation is committed and Remains is decremented
under the event lock (the assert on the event lookup becomes a panicked
outcome). -/
def reserveSheet (state : State) (userID : Nat) (eventSheet : EventSheet)
    (play : Except CheckErr (Nat × Nat)) :
    Except CheckErr JsonReservation × EventSheet × State :=
  let eventID := eventSheet.EventID
  let rank := eventSheet.Rank
  let reservation := pendingReservation userID eventSheet
  let appended := state.AppendReserveLog reservation
  let logID := appended.1
  let st1 := appended.2
  match play with
  | .error e => (.error e, eventSheet, st1)
  | .ok (rid, num) =>
    let reservation1 := { reservation with ID := rid, SheetNum := num }
    let st2 := st1.DeleteReserveLog logID reservation1
    let eventSheet1 := { eventSheet with Num := num }
    let st3 := st2.CommitReservation reservation1
    match st3.FindEventByID eventID with
    | none => (.error .panicked, eventSheet1, st3)
    | some _ =>
      (.ok { ReservationID := rid, SheetRank := rank, SheetNum := num },
       eventSheet1, st3.decrRemains eventID)

/-- cancelSheet (scenario.go lines 1772-1803).  On a play error the function
returns at once, without deleting the pending cancel log entry.  On success
the cancellation is committed, then the log entry is deleted, the sheet slot
is released and Remains is incremented. -/
def cancelSheet (state : State) (userID : Nat) (eventSheet : EventSheet)
    (reserved : JsonReservation) (play : Except CheckErr Unit) (now : Int) :
    Except CheckErr Unit × EventSheet × State :=
  let eventID := eventSheet.EventID
  let reservationID := reserved.ReservationID
  match state.BeginCancelReservation reservationID with
  | none => (.error .panicked, eventSheet, state)
  | some reservation =>
    let appended := state.AppendCancelLog reservation
    let logID := appended.1
    let st1 := appended.2
    match play with
    | .error e => (.error e, eventSheet, st1)
    | .ok _ =>
      let st2 := st1.CommitCancelReservation reservation now
      let st3 := st2.DeleteCancelLog logID reservation
      let eventSheet1 := { eventSheet with Num := NonReservedNum }
      match st3.FindEventByID eventID with
      | none => (.error .panicked, eventSheet1, st3)
      | some _ => (.ok (), eventSheet1, st3.incrRemains eventID)

/-- The value of an HTML attribute with the external JSON decoding primitives
already applied: decodeEvents is the result of unmarshalling into an event
list, decodeUser the result of unmarshalling into a nullable user (some none
is the JSON null), and isNullLiteral tells whether the raw string equals the
literal null. -/
structure AttrVal where
  decodeEvents : Option (List JsonEvent)
  decodeUser : Option (Option JsonUser)
  isNullLiteral : Bool
  deriving Repr, DecidableEq

/-- Error messages of the CheckTopPage attribute verification. -/
def eventsDecodeMsg : String := "events json decode failed"

/-- Error message for a malformed data-login-user value. -/
def userDecodeMsg : String := "login user json decode failed"

/-- Error message for a null logged-in user. -/
def nullUserMsg : String := "login user is null"

/-- Error message for a wrong logged-in user identity. -/
def wrongUserMsg : String := "login user is wrong"

/-- Error message for a non-null user value while logged out. -/
def nonNullUserMsg : String := "login user is not null"

/-- Error message when the two data attributes are not found exactly twice in
total. -/
def missingAttrsMsg : String := "data attributes are missing"

/-- The attribute loop of CheckTopPage (scenario.go lines 702-740): walks the
attributes of the app-wrapper node, fully checking every data-events and
data-login-user occurrence and counting the occurrences that passed. -/
def attrsLoop (now : Int) (s : State) (user : AppUser) :
    List (String × AttrVal) → Nat → Except CheckErr Nat
  | [], found => .ok found
  | (k, v) :: rest, found =>
    if k = "data-events" then
      match v.decodeEvents with
      | none => .error (.fatal eventsDecodeMsg)
      | some events =>
        match checkEventsList now s events with
        | .error e => .error e
        | .ok _ => attrsLoop now s user rest (found + 1)
    else if k = "data-login-user" then
      if user.Status.Online then
        match v.decodeUser with
        | none => .error (.fatal userDecodeMsg)
        | some none => .error (.fatal nullUserMsg)
        | some (some u) =>
          if u.ID ≠ user.ID ∨ u.Nickname ≠ user.Nickname then
            .error (.fatal wrongUserMsg)
          else attrsLoop now s user rest (found + 1)
      else
        if v.isNullLiteral then attrsLoop now s user rest (found + 1)
        else .error (.fatal nonNullUserMsg)
    else attrsLoop now s user rest found

/-- The data-attribute verification of CheckTopPage (scenario.go lines
697-744): the attribute loop must succeed and the number of passing
data-events and data-login-user occurrences must be exactly two. -/
def checkTopPageAttrs (now : Int) (s : State) (user : AppUser)
    (attrs : List (String × AttrVal)) : Except CheckErr Unit :=
  match attrsLoop now s user attrs 0 with
  | .error e => .error e
  | .ok found => if found ≠ 2 then .error (.fatal missingAttrsMsg) else .ok ()

/-- Number of attributes carrying the given key. -/
def countKey (attrs : List (String × AttrVal)) (k : String) : Nat :=
  (attrs.filter (fun p => p.1 == k)).length

/-- True when a data-events value decodes and its event list passes
checkEventsList. -/
def dePassB (now : Int) (s : State) (v : AttrVal) : Bool :=
  match v.decodeEvents with
  | none => false
  | some events =>
    match checkEventsList now s events with
    | .ok _ => true
    | .error _ => false

/-- True when a data-login-user value satisfies the check for the given user:
the identity of the logged-in user while online, the null literal while
offline. -/
def dluPassB (user : AppUser) (v : AttrVal) : Bool :=
  if user.Status.Online then
    match v.decodeUser with
    | some (some u) => u.ID == user.ID && u.Nickname == user.Nickname
    | _ => false
  else v.isNullLiteral

/-- True when one attribute passes its content check (attributes other than
the two data attributes are ignored by the loop). -/
def attrPassB (now : Int) (s : State) (user : AppUser)
    (p : String × AttrVal) : Bool :=
  if p.1 = "data-events" then dePassB now s p.2
  else if p.1 = "data-login-user" then dluPassB user p.2
  else true

/-- A user that is online when popped by CheckLogin. -/
def c2User : AppUser :=
  { ID := 3, Nickname := "nick", LoginName := "login3", Password := "pw",
    Status := { Online := true } }

/-- A public, long-since-created event with the given id. -/
def oldPublicEvent (i : Nat) : Event :=
  { ID := i, Price := 0, PublicFg := true, ClosedFg := false,
    CreatedAt := -1000000, Remains := 0 }

/-- Concrete state with expected public events 1 and 2 for C3. -/
def c3State : State :=
  { emptyState with events := [oldPublicEvent 1, oldPublicEvent 2] }

/-- Observed list with a surplus entry whose ID is not strictly greater than
the maximum expected ID. -/
def c3Obs : List JsonEvent := [{ ID := 1 }, { ID := 2 }, { ID := 2 }]

/-- The expected events whose absence the deficit branch of checkEventsList
actually examines: the maximal run of expected events taken backwards from
the end of the list, stopping before the first expected event and at the
first event whose ID does not exceed the last observed ID. -/
def lateExpected (expected : List Event) (lastObsID : Nat) : List Event :=
  (expected.reverse.dropLast.takeWhile (fun e => decide (lastObsID < e.ID))).reverse

/-- The attribute value of the witness instance: decodes to the single
expected event list. -/
def c7EventsVal : AttrVal :=
  { decodeEvents := some [{ ID := 1 }], decodeUser := none,
    isNullLiteral := false }

/-- The null attribute value for the offline witness user. -/
def c7NullVal : AttrVal :=
  { decodeEvents := none, decodeUser := some none, isNullLiteral := true }

/-- The offline user of the C7 witness instance. -/
def c7User : AppUser :=
  { ID := 4, Nickname := "n4", LoginName := "l4", Password := "p4",
    Status := { Online := false } }

/-- Concrete state for the C7 witness: one public event with ID 1. -/
def c7State : State :=
  { emptyState with events := [oldPublicEvent 1] }

/-- The sheet kind of the concrete report-check instances. -/
def reportKind : SheetKind := { Rank := "S", Price := 3 }

/-- The event of the concrete report-check instances. -/
def reportEvent : Event :=
  { ID := 1, Price := 5, PublicFg := true, ClosedFg := false,
    CreatedAt := 0, Remains := 0 }

/-- Concrete state for the report-check instances. -/
def reportState : State :=
  { emptyState with events := [reportEvent], sheetKinds := [reportKind] }

/-- The never-canceled stored reservation of the C5 instance. -/
def c5Res : Reservation :=
  { ID := 1, EventID := 1, UserID := 1002, SheetRank := "S", SheetNum := 36 }

/-- The definitely canceled stored reservation of the C6 instance. -/
def c6ResCanceled : Reservation :=
  { ID := 2, EventID := 1, UserID := 1002, SheetRank := "S", SheetNum := 40,
    canceledAt := some (-10) }

/-- The possibly canceled stored reservation of the C6 instance: its cancel
log entry was never removed, so it overlaps every request window. -/
def c6ResMaybe : Reservation :=
  { ID := 3, EventID := 1, UserID := 1002, SheetRank := "S", SheetNum := 41,
    cancelLogAt := some (-5) }

/-- Concrete state with old public events 1, 2 and 3 for the C4 instances. -/
def c4State : State :=
  { emptyState with
      events := [oldPublicEvent 1, oldPublicEvent 2, oldPublicEvent 3] }

/-- Concrete state for the c4 witness: event 1 is old, event 2 was created
within AllowableDelay of the observation time. -/
def c4StateRecent : State :=
  { emptyState with
      events := [oldPublicEvent 1,
                 { ID := 2, Price := 0, PublicFg := true, ClosedFg := false,
                   CreatedAt := -100, Remains := 0 }] }

/-- The single event of the concrete states used for the C1 instances. -/
def c1Event : Event :=
  { ID := 1, Price := 100, PublicFg := true, ClosedFg := false,
    CreatedAt := 0, Remains := 10 }

/-- Concrete event sheet popped for the C1 instances. -/
def c1Sheet : EventSheet := { EventID := 1, Rank := "S", Num := 0 }

/-- Concrete state for the reserve instance of C1. -/
def c1State : State := { emptyState with events := [c1Event] }

/-- The committed reservation canceled in the C1 cancel instance. -/
def c1Res : Reservation :=
  { ID := 5, EventID := 1, UserID := 7, SheetRank := "S", SheetNum := 12 }

/-- Concrete state for the cancel instance of C1. -/
def c1StateC : State :=
  { emptyState with events := [c1Event], reservations := [c1Res] }

/-- The reservation response for the C1 cancel instance. -/
def c1Json : JsonReservation :=
  { ReservationID := 5, SheetRank := "S", SheetNum := 12 }

/-- Deleting a freshly appended log entry restores the original log when the
fresh id does not occur in it. -/
theorem filter_fresh_append (l : List (Nat × Reservation)) (n : Nat)
    (r : Reservation) (h : ∀ p ∈ l, p.1 ≠ n) :
    (l ++ [(n, r)]).filter (fun p => decide (p.1 ≠ n)) = l := by
  rw [List.filter_append]
  have h1 : l.filter (fun p => decide (p.1 ≠ n)) = l :=
    List.filter_eq_self.mpr (fun a ha => by simpa using h a ha)
  simp [h1]
  exact fun a b hab => h (a, b) hab

/-- CommitReservation leaves the pending reserve log unchanged. -/
theorem reserveLog_CommitReservation (s : State) (r : Reservation) :
    (s.CommitReservation r).reserveLog = s.reserveLog := by
  unfold State.CommitReservation
  split <;> rfl

/-- CommitCancelReservation leaves the pending cancel log unchanged. -/
theorem cancelLog_CommitCancelReservation (s : State) (r : Reservation)
    (now : Int) : (s.CommitCancelReservation r now).cancelLog = s.cancelLog :=
  rfl

/-- C9: for every state, checkEventsList called with an empty observed list
returns a fatal error unconditionally, even when every expected public event
is recent and even when the expected set is empty. -/
theorem c9_empty_events_fatal (now : Int) (s : State) :
    checkEventsList now s [] = .error (.fatal eventsCountMsg) := rfl

/-- C10: loginAppUser and loginAdministratorWithTimeout succeed immediately,
issuing no HTTP call, when the actor is already online; consequently two
consecutive login calls are equivalent to one, and the login exchange is only
exercised starting from an offline actor. -/
theorem c10_login_idempotent :
    (∀ (p : Except CheckErr Unit) (u : AppUser), u.Status.Online = true →
        loginAppUser p u = (.ok (), u, []))
  ∧ (∀ (p : Except CheckErr Unit) (a : Administrator) (t : Int),
        a.Status.Online = true →
        loginAdministratorWithTimeout p a t = (.ok (), a, []))
  ∧ (∀ (p1 p2 : Except CheckErr Unit) (u : AppUser),
        loginAppUserTwice p1 p2 u = loginAppUser p1 u)
  ∧ (∀ (p1 p2 : Except CheckErr Unit) (a : Administrator) (t1 t2 : Int),
        loginAdministratorTwice p1 p2 a t1 t2 =
          loginAdministratorWithTimeout p1 a t1) := by
  refine ⟨?_, ?_, ?_, ?_⟩
  · intro p u h
    simp [loginAppUser, h]
  · intro p a t h
    simp [loginAdministratorWithTimeout, h]
  · intro p1 p2 u
    cases h : u.Status.Online <;> cases p1 <;>
      simp [loginAppUserTwice, loginAppUser, setUserOnline, h]
  · intro p1 p2 a t1 t2
    cases h : a.Status.Online <;> cases p1 <;>
      simp [loginAdministratorTwice, loginAdministratorWithTimeout,
        setAdminOnline, h]

/-- C2 counterexample: CheckLogin pops an online user and assigns Online
false right after resetting the cookie, before any HTTP call: the first trace
event is the flag mutation itself, so the trace is not free of speculative
mutations — refuting the claim that the flag is mutated only after a
successful login or logout round trip. -/
theorem c2_counterexample :
    c2User.Status.Online = true
  ∧ (CheckLogin c2User (.ok ()) (.ok ()) (.ok ()) (.ok ()) (.ok ())).2.2.head?
      = some (.setOnline false)
  ∧ specFree
      (CheckLogin c2User (.ok ()) (.ok ()) (.ok ()) (.ok ()) (.ok ())).2.2
      = false := by
  decide

/-- C2 amended: in the four login/logout helpers every Online-flag mutation
immediately follows the corresponding successful HTTP call (their traces are
free of speculative mutations, and the flag value after the call is exactly
determined by the previous value and the call outcome); CheckLogin and
CheckAdminLogin, however, additionally clear the flag unconditionally at
their start, before any call. -/
theorem c2_amended_online_flag :
    (∀ (p : Except CheckErr Unit) (u : AppUser),
        specFree (loginAppUser p u).2.2 = true
      ∧ (loginAppUser p u).2.1.Status.Online = (u.Status.Online || isOkU p))
  ∧ (∀ (p : Except CheckErr Unit) (u : AppUser),
        specFree (logoutAppUser p u).2.2 = true
      ∧ (logoutAppUser p u).2.1.Status.Online = (u.Status.Online && !isOkU p))
  ∧ (∀ (p : Except CheckErr Unit) (a : Administrator) (t : Int),
        specFree (loginAdministratorWithTimeout p a t).2.2 = true
      ∧ (loginAdministratorWithTimeout p a t).2.1.Status.Online
          = (a.Status.Online || isOkU p))
  ∧ (∀ (p : Except CheckErr Unit) (a : Administrator),
        specFree (logoutAdministrator p a).2.2 = true
      ∧ (logoutAdministrator p a).2.1.Status.Online
          = (a.Status.Online && !isOkU p)) := by
  refine ⟨?_, ?_, ?_, ?_⟩
  · intro p u
    cases h : u.Status.Online <;> cases p <;>
      simp [loginAppUser, setUserOnline, specFree, specFreeFrom,
        setMatchesCall, isOkU, h]
  · intro p u
    cases h : u.Status.Online <;> cases p <;>
      simp [logoutAppUser, setUserOnline, specFree, specFreeFrom,
        setMatchesCall, isOkU, h]
  · intro p a t
    cases h : a.Status.Online <;> cases p <;>
      simp [loginAdministratorWithTimeout, setAdminOnline, specFree,
        specFreeFrom, setMatchesCall, isOkU, h]
  · intro p a
    cases h : a.Status.Online <;> cases p <;>
      simp [logoutAdministrator, setAdminOnline, specFree, specFreeFrom,
        setMatchesCall, isOkU, h]

/-- C3 counterexample: three events are observed against two expected public
events and the extra observed event has ID 2, not strictly greater than the
maximum expected ID 2 — yet checkEventsList succeeds, refuting the claim that
it fails in this situation. -/
theorem c3_counterexample :
    checkEventsList 0 c3State c3Obs = .ok ()
  ∧ (FilterPublicEvents c3State.GetEvents).map Event.ID = [1, 2]
  ∧ c3Obs.map JsonEvent.ID = [1, 2, 2] := by
  decide

/-- C3 amended: when more events are observed than expected (and at least one
public event is expected), checkEventsList always succeeds: the surplus
branch merely trims trailing events with newer IDs into an unused local
variable, and the positional comparison that would reject remaining extras is
commented out in the source, so no surplus ever causes a failure. -/
theorem c3_amended_surplus_tolerated (now : Int) (s : State)
    (obs : List JsonEvent)
    (hSort : isSortedByID obs = true)
    (hNe : FilterPublicEvents s.GetEvents ≠ [])
    (hLen : (FilterPublicEvents s.GetEvents).length < obs.length) :
    checkEventsList now s obs = .ok () := by
  have hExpPos : 0 < (FilterPublicEvents s.GetEvents).length :=
    List.length_pos.mpr hNe
  have h0 : ¬obs.length = 0 := by omega
  have h1 : ¬obs.length < (FilterPublicEvents s.GetEvents).length := by omega
  have h3 : ¬obs.length ≤ 1 := by omega
  cases hL : (FilterPublicEvents s.GetEvents).getLast? with
  | none => exact absurd (List.getLast?_eq_none_iff.mp hL) hNe
  | some lastExp => simp [checkEventsList, hSort, h0, h1, hLen, h3, hL]

/-- Witness for c3_amended_surplus_tolerated at a concrete input. -/
theorem c3_amended_surplus_tolerated_witness :
    checkEventsList 0 c3State [{ ID := 1 }, { ID := 2 }, { ID := 5 }] = .ok () :=
  c3_amended_surplus_tolerated 0 c3State [{ ID := 1 }, { ID := 2 }, { ID := 5 }]
    (by decide) (by decide) (by decide)

/-- The backwards missed-events scan equals a takeWhile over the reversed
expected list with its final element (the original head) removed. -/
theorem missedRevLoop_eq_takeWhile (q : Nat) (r : List Event) :
    missedRevLoop q r = r.dropLast.takeWhile (fun e => decide (q < e.ID)) := by
  induction r with
  | nil => rfl
  | cons a rest ih =>
    cases rest with
    | nil => rfl
    | cons b rest2 =>
      rw [List.dropLast_cons₂, List.takeWhile_cons]
      by_cases h : a.ID ≤ q
      · have hd : decide (q < a.ID) = false := by simp [Nat.not_lt.mpr h]
        simp [missedRevLoop, h, hd]
      · have hd : decide (q < a.ID) = true := decide_eq_true (Nat.not_le.mp h)
        simp [missedRevLoop, h, hd, ih]

/-- C4 amended: with fewer observed than expected events, checkEventsList
succeeds exactly when every event of the examined missed tail (lateExpected)
was created within AllowableDelay of now; expected events missing from the
middle of the sequence, whose IDs do not exceed the last observed ID, are
never examined. -/
theorem c4_amended_deficit_window (now : Int) (s : State)
    (obs : List JsonEvent) (lastObs : JsonEvent)
    (hSort : isSortedByID obs = true)
    (hLast : obs.getLast? = some lastObs)
    (hLen : obs.length < (FilterPublicEvents s.GetEvents).length) :
    (checkEventsList now s obs = .ok () ↔
      (lateExpected (FilterPublicEvents s.GetEvents) lastObs.ID).all
        (fun e => decide (now - AllowableDelay ≤ e.CreatedAt)) = true) := by
  have hNe : obs ≠ [] := by
    intro h
    rw [h] at hLast
    simp at hLast
  have h0 : ¬obs.length = 0 := by
    intro h
    exact hNe (List.length_eq_zero.mp h)
  have hEq : checkEventsList now s obs =
      (if (lateExpected (FilterPublicEvents s.GetEvents) lastObs.ID).any
          (fun e => decide (e.CreatedAt < now - AllowableDelay)) then
        (.error (.fatal eventsCountMsg) : Except CheckErr Unit)
      else .ok ()) := by
    simp [checkEventsList, hSort, h0, hLen, hLast, lateExpected,
      missedRevLoop_eq_takeWhile, List.any_reverse]
  rw [hEq]
  cases hA : (lateExpected (FilterPublicEvents s.GetEvents) lastObs.ID).any
      (fun e => decide (e.CreatedAt < now - AllowableDelay)) with
  | true =>
    rcases List.any_eq_true.mp hA with ⟨e, he, hlt⟩
    have hlt2 : e.CreatedAt < now - AllowableDelay := of_decide_eq_true hlt
    simp [hA]
    refine ⟨e, he, ?_⟩
    omega
  | false =>
    simp [hA]
    intro e he
    have h2 : ¬e.CreatedAt < now - AllowableDelay := by
      have h3 := List.any_eq_false.mp hA e he
      simpa using h3
    omega

/-- C8: a report row whose fields parse, whose event exists and whose price
is consistent, but whose reservation id is unknown to the
reservationsBeforeRequest map, is accepted as is: the parsed record is
returned with no error and no further comparison. -/
theorem c8_unknown_reservation_row (s : State) (line : Nat) (t : Int)
    (before afterR : List (Nat × Reservation))
    (rid eid num price uid sold : Int) (rank : String) (canc : Option Int)
    (ev : Event) (k : SheetKind)
    (hEv : s.FindEventByID (uintOf eid) = some ev)
    (hK : GetSheetKindByRank s rank = some k)
    (hP : uintOf price = (ev.Price + k.Price) % 2 ^ 64)
    (hNo : lookupRes before (uintOf rid) = none) :
    checkReportRecord s (some (mkRow rid eid rank num price uid sold canc))
        line t before afterR = .ok (recordOf rid eid rank num uid canc) := by
  simp [checkReportRecord, mkRow, hEv, hK, hP, hNo, recordOf]

/-- C6: for a row matching a known reservation on the five identity fields,
a missing canceled_at is fatal when the reservation was definitely canceled
before the request window, but only logged (the check succeeds) when the
reservation was merely possibly canceled. -/
theorem c6_cancel_presence (s : State) (line : Nat) (t : Int)
    (before afterR : List (Nat × Reservation))
    (rid eid num price uid sold : Int) (rank : String) (canc : Option Int)
    (rb : Reservation) (ev : Event) (k : SheetKind)
    (hEv : s.FindEventByID (uintOf eid) = some ev)
    (hK : GetSheetKindByRank s rank = some k)
    (hP : uintOf price = (ev.Price + k.Price) % 2 ^ 64)
    (hFound : lookupRes before (uintOf rid) = some rb)
    (h1 : rb.ID = uintOf rid) (h2 : rb.EventID = uintOf eid)
    (h3 : rb.UserID = uintOf uid) (h4 : rb.SheetRank = rank)
    (h5 : rb.SheetNum = uintOf num)
    (hMiss : canc.getD 0 = 0) :
    (rb.Canceled t = true →
      checkReportRecord s (some (mkRow rid eid rank num price uid sold canc))
          line t before afterR = .error (.fatal reportMsg))
  ∧ (rb.Canceled t = false → rb.MaybeCanceled t = true →
      checkReportRecord s (some (mkRow rid eid rank num price uid sold canc))
          line t before afterR = .ok (recordOf rid eid rank num uid canc)) := by
  constructor
  · intro hCan
    simp [checkReportRecord, mkRow, hEv, hK, hP, hFound, h1, h2, h3, h4, h5,
      hCan, hMiss, recordOf]
  · intro hCan hMay
    simp [checkReportRecord, mkRow, hEv, hK, hP, hFound, h1, h2, h3, h4, h5,
      hCan, hMay, hMiss, recordOf]

/-- C5 amended: for a row whose reservation id is known before the request,
exactly the five identity fields (reservation id, event id, user id, rank,
seat number) are compared against the stored reservation, fatally on any
mismatch; the canceled_at column (like sold_at) is not compared for equality,
and an uncanceled reservation accepts a row with any canceled_at value. -/
theorem c5_amended_field_match (s : State) (line : Nat) (t : Int)
    (before afterR : List (Nat × Reservation))
    (rid eid num price uid sold : Int) (rank : String) (canc : Option Int)
    (rb : Reservation) (ev : Event) (k : SheetKind)
    (hEv : s.FindEventByID (uintOf eid) = some ev)
    (hK : GetSheetKindByRank s rank = some k)
    (hP : uintOf price = (ev.Price + k.Price) % 2 ^ 64)
    (hFound : lookupRes before (uintOf rid) = some rb) :
    (¬(rb.ID = uintOf rid ∧ rb.EventID = uintOf eid ∧ rb.UserID = uintOf uid ∧
        rb.SheetRank = rank ∧ rb.SheetNum = uintOf num) →
      checkReportRecord s (some (mkRow rid eid rank num price uid sold canc))
          line t before afterR = .error (.fatal reportMsg))
  ∧ (rb.ID = uintOf rid → rb.EventID = uintOf eid → rb.UserID = uintOf uid →
      rb.SheetRank = rank → rb.SheetNum = uintOf num →
      rb.Canceled t = false → rb.MaybeCanceled t = false →
      checkReportRecord s (some (mkRow rid eid rank num price uid sold canc))
          line t before afterR = .ok (recordOf rid eid rank num uid canc)) := by
  constructor
  · intro hNe
    by_cases c1 : rb.ID = uintOf rid
    · by_cases c2 : rb.EventID = uintOf eid
      · by_cases c3 : rb.UserID = uintOf uid
        · by_cases c4 : rb.SheetRank = rank
          · by_cases c5 : rb.SheetNum = uintOf num
            · exact absurd ⟨c1, c2, c3, c4, c5⟩ hNe
            · simp [checkReportRecord, mkRow, hEv, hK, hP, hFound, c5]
          · simp [checkReportRecord, mkRow, hEv, hK, hP, hFound, c4]
        · simp [checkReportRecord, mkRow, hEv, hK, hP, hFound, c3]
      · simp [checkReportRecord, mkRow, hEv, hK, hP, hFound, c2]
    · simp [checkReportRecord, mkRow, hEv, hK, hP, hFound, c1]
  · intro h1 h2 h3 h4 h5 hCan hMay
    simp [checkReportRecord, mkRow, hEv, hK, hP, hFound, h1, h2, h3, h4, h5,
      hCan, hMay, recordOf]

/-- Unfolding of countKey over a cons cell. -/
theorem countKey_cons (k : String) (v : AttrVal)
    (rest : List (String × AttrVal)) (key : String) :
    countKey ((k, v) :: rest) key =
      (if k == key then 1 else 0) + countKey rest key := by
  simp only [countKey, List.filter_cons]
  split <;> simp [Nat.add_comm]

/-- When every data attribute passes its content check, the attribute loop
succeeds and counts exactly the data-events and data-login-user
occurrences. -/
theorem attrsLoop_ok_of_all (now : Int) (s : State) (u : AppUser) :
    ∀ (attrs : List (String × AttrVal)) (found : Nat),
    attrs.all (attrPassB now s u) = true →
    attrsLoop now s u attrs found =
      .ok (found + countKey attrs "data-events" +
        countKey attrs "data-login-user") := by
  intro attrs
  induction attrs with
  | nil =>
    intro found _
    simp [attrsLoop, countKey]
  | cons p rest ih =>
    intro found hAll
    obtain ⟨k, v⟩ := p
    rw [List.all_cons] at hAll
    obtain ⟨hHead, hTail⟩ := Bool.and_eq_true_iff.mp hAll
    rw [countKey_cons, countKey_cons]
    by_cases hk : k = "data-events"
    · subst hk
      cases hd : v.decodeEvents with
      | none => exact absurd hHead (by simp [attrPassB, dePassB, hd])
      | some evs =>
        cases hc : checkEventsList now s evs with
        | error e => exact absurd hHead (by simp [attrPassB, dePassB, hd, hc])
        | ok w =>
          simp [attrsLoop, hd, hc, ih (found + 1) hTail]
          omega
    · by_cases hk2 : k = "data-login-user"
      · subst hk2
        cases hOn : u.Status.Online with
        | true =>
          cases hd : v.decodeUser with
          | none =>
            exact absurd hHead (by simp [attrPassB, dluPassB, hOn, hd])
          | some ju? =>
            cases ju? with
            | none =>
              exact absurd hHead (by simp [attrPassB, dluPassB, hOn, hd])
            | some ju =>
              have hids : ju.ID = u.ID ∧ ju.Nickname = u.Nickname := by
                have h2 := hHead
                simp [attrPassB, dluPassB, hOn, hd] at h2
                exact h2
              simp [attrsLoop, hOn, hd, hids.1, hids.2,
                ih (found + 1) hTail]
              omega
        | false =>
          cases hNull : v.isNullLiteral with
          | false =>
            exact absurd hHead (by simp [attrPassB, dluPassB, hOn, hNull])
          | true =>
            simp [attrsLoop, hOn, hNull, ih (found + 1) hTail]
            omega
      · simp [attrsLoop, hk, hk2, ih found hTail]

/-- Conversely, when the attribute loop succeeds every data attribute passed
its content check, and the returned count is the starting count plus the
number of data-events and data-login-user occurrences. -/
theorem attrsLoop_ok_inv (now : Int) (s : State) (u : AppUser) :
    ∀ (attrs : List (String × AttrVal)) (found n : Nat),
    attrsLoop now s u attrs found = .ok n →
    attrs.all (attrPassB now s u) = true ∧
      n = found + countKey attrs "data-events" +
        countKey attrs "data-login-user" := by
  intro attrs
  induction attrs with
  | nil =>
    intro found n h
    simp only [attrsLoop] at h
    cases h
    simp [countKey]
  | cons p rest ih =>
    intro found n h
    obtain ⟨k, v⟩ := p
    rw [List.all_cons, countKey_cons, countKey_cons]
    by_cases hk : k = "data-events"
    · subst hk
      cases hd : v.decodeEvents with
      | none => simp [attrsLoop, hd] at h
      | some evs =>
        cases hc : checkEventsList now s evs with
        | error e => simp [attrsLoop, hd, hc] at h
        | ok w =>
          simp only [attrsLoop] at h
          rw [hd] at h
          simp only [hc] at h
          obtain ⟨hTail, hn⟩ := ih (found + 1) n (by simpa using h)
          refine ⟨?_, ?_⟩
          · simp [attrPassB, dePassB, hd, hc, hTail]
          · simp
            omega
    · by_cases hk2 : k = "data-login-user"
      · subst hk2
        cases hOn : u.Status.Online with
        | true =>
          cases hd : v.decodeUser with
          | none => simp [attrsLoop, hOn, hd] at h
          | some ju? =>
            cases ju? with
            | none => simp [attrsLoop, hOn, hd] at h
            | some ju =>
              by_cases hu : ju.ID ≠ u.ID ∨ ju.Nickname ≠ u.Nickname
              · simp only [attrsLoop] at h
                rw [hOn] at h
                simp only [hd] at h
                rw [if_pos hu] at h
                simp at h
              · simp only [attrsLoop] at h
                rw [hOn] at h
                simp only [hd] at h
                rw [if_neg hu] at h
                push_neg at hu
                obtain ⟨hTail, hn⟩ := ih (found + 1) n (by simpa using h)
                refine ⟨?_, ?_⟩
                · simp [attrPassB, dluPassB, hOn, hd, hu.1, hu.2, hTail]
                · simp
                  omega
        | false =>
          cases hNull : v.isNullLiteral with
          | false => simp [attrsLoop, hOn, hNull] at h
          | true =>
            simp only [attrsLoop] at h
            rw [hOn] at h
            simp only [hNull] at h
            obtain ⟨hTail, hn⟩ := ih (found + 1) n (by simpa using h)
            refine ⟨?_, ?_⟩
            · simp [attrPassB, dluPassB, hOn, hNull, hTail]
            · simp
              omega
      · simp only [attrsLoop, if_neg hk, if_neg hk2] at h
        obtain ⟨hTail, hn⟩ := ih found n h
        refine ⟨?_, ?_⟩
        · simp [attrPassB, hk, hk2, hTail]
        · simp [hk, hk2]
          omega

/-- C7: over parsed HTML attributes (in which each attribute key occurs at
most once, as the HTML parser drops duplicate attributes), the CheckTopPage
attribute verification succeeds exactly when the data-events and
data-login-user attributes are each present exactly once and every occurrence
passes its content check: data-events must decode to an event list accepted
by checkEventsList, and data-login-user must decode to the identity of the
popped user when online and be the null literal when offline. -/
theorem c7_top_page_attrs (now : Int) (s : State) (u : AppUser)
    (attrs : List (String × AttrVal))
    (hDE : countKey attrs "data-events" ≤ 1)
    (hDLU : countKey attrs "data-login-user" ≤ 1) :
    (checkTopPageAttrs now s u attrs = .ok () ↔
      (countKey attrs "data-events" = 1 ∧
       countKey attrs "data-login-user" = 1 ∧
       attrs.all (attrPassB now s u) = true)) := by
  constructor
  · intro hok
    unfold checkTopPageAttrs at hok
    cases hL : attrsLoop now s u attrs 0 with
    | error e => rw [hL] at hok; cases hok
    | ok found =>
      rw [hL] at hok
      by_cases hf : found = 2
      · obtain ⟨hAll, hn⟩ := attrsLoop_ok_inv now s u attrs 0 found hL
        refine ⟨by omega, by omega, hAll⟩
      · simp [hf] at hok
  · rintro ⟨h1, h2, hAll⟩
    have hL := attrsLoop_ok_of_all now s u attrs 0 hAll
    simp [checkTopPageAttrs, hL, h1, h2]

/-- Witness for c7_top_page_attrs at a concrete input. -/
theorem c7_top_page_attrs_witness :
    checkTopPageAttrs 0 c7State c7User
      [("data-events", c7EventsVal), ("data-login-user", c7NullVal)]
      = .ok () :=
  (c7_top_page_attrs 0 c7State c7User
    [("data-events", c7EventsVal), ("data-login-user", c7NullVal)]
    (by decide) (by decide)).mpr (by decide)

/-- C5 counterexample: the row matches the stored, never-canceled reservation
on the five identity fields but carries the canceled_at timestamp 99, a field
value the stored reservation does not have — yet checkReportRecord returns
the record without error, refuting the claim that any field mismatch is
fatal. -/
theorem c5_counterexample :
    c5Res.canceledAt = none
  ∧ checkReportRecord reportState (some (mkRow 1 1 "S" 36 8 1002 0 (some 99)))
      0 0 [(1, c5Res)] [] = .ok (recordOf 1 1 "S" 36 1002 (some 99))
  ∧ (recordOf 1 1 "S" 36 1002 (some 99)).CanceledAt = 99 := by
  decide

/-- Witness for c5_amended_field_match at concrete inputs: a seat-number
mismatch is fatal, and a canceled_at mismatch on an uncanceled reservation is
accepted. -/
theorem c5_amended_field_match_witness :
    (checkReportRecord reportState (some (mkRow 1 1 "S" 37 8 1002 0 none))
        0 0 [(1, c5Res)] [] = .error (.fatal reportMsg))
  ∧ (checkReportRecord reportState (some (mkRow 1 1 "S" 36 8 1002 0 (some 99)))
        0 0 [(1, c5Res)] [] = .ok (recordOf 1 1 "S" 36 1002 (some 99))) :=
  ⟨(c5_amended_field_match reportState 0 0 [(1, c5Res)] [] 1 1 37 8 1002 0 "S"
      none c5Res reportEvent reportKind (by decide) (by decide) (by decide)
      (by decide)).1 (by decide),
   (c5_amended_field_match reportState 0 0 [(1, c5Res)] [] 1 1 36 8 1002 0 "S"
      (some 99) c5Res reportEvent reportKind (by decide) (by decide) (by decide)
      (by decide)).2 (by decide) (by decide) (by decide) (by decide) (by decide)
      (by decide) (by decide)⟩

/-- Witness for c6_cancel_presence at concrete inputs. -/
theorem c6_cancel_presence_witness :
    (checkReportRecord reportState (some (mkRow 2 1 "S" 40 8 1002 0 none))
        0 0 [(2, c6ResCanceled)] [] = .error (.fatal reportMsg))
  ∧ (checkReportRecord reportState (some (mkRow 3 1 "S" 41 8 1002 0 none))
        0 0 [(3, c6ResMaybe)] [] = .ok (recordOf 3 1 "S" 41 1002 none)) :=
  ⟨(c6_cancel_presence reportState 0 0 [(2, c6ResCanceled)] [] 2 1 40 8 1002 0
      "S" none c6ResCanceled reportEvent reportKind (by decide) (by decide)
      (by decide) (by decide) (by decide) (by decide) (by decide) (by decide)
      (by decide) (by decide)).1 (by decide),
   (c6_cancel_presence reportState 0 0 [(3, c6ResMaybe)] [] 3 1 41 8 1002 0
      "S" none c6ResMaybe reportEvent reportKind (by decide) (by decide)
      (by decide) (by decide) (by decide) (by decide) (by decide) (by decide)
      (by decide) (by decide)).2 (by decide) (by decide)⟩

/-- Witness for c8_unknown_reservation_row at a concrete input. -/
theorem c8_unknown_reservation_row_witness :
    checkReportRecord reportState (some (mkRow 9 1 "S" 7 8 1002 0 none))
        0 0 [] [] = .ok (recordOf 9 1 "S" 7 1002 none) :=
  c8_unknown_reservation_row reportState 0 0 [] [] 9 1 7 8 1002 0 "S" none
    reportEvent reportKind (by decide) (by decide) (by decide) (by decide)

/-- C4 counterexample: events 1, 2, 3 are expected, all created far more than
AllowableDelay ago, and only 1 and 3 are observed; the missing event 2 is old,
so the claim demands a fatal error, but checkEventsList succeeds because its
backwards scan stops at event 3, whose ID does not exceed the last observed
ID, and never examines event 2. -/
theorem c4_counterexample :
    checkEventsList 0 c4State [{ ID := 1 }, { ID := 3 }] = .ok ()
  ∧ (FilterPublicEvents c4State.GetEvents).map Event.ID = [1, 2, 3]
  ∧ (oldPublicEvent 2).CreatedAt < 0 - AllowableDelay := by
  decide

/-- Witness for c4_amended_deficit_window at a concrete input. -/
theorem c4_amended_deficit_window_witness :
    checkEventsList 0 c4StateRecent [{ ID := 1 }] = .ok () :=
  (c4_amended_deficit_window 0 c4StateRecent [{ ID := 1 }] { ID := 1 }
    (by decide) (by decide) (by decide)).mpr (by decide)

/-- C1 counterexample: when the Play call returns an error, reserveSheet and
cancelSheet return at once and the pending log entry appended before the call
is still present afterwards — refuting the claim that the entry is removed on
every exit path. -/
theorem c1_counterexample :
    (reserveSheet c1State 7 c1Sheet (.error (.fatal "network"))).1
      = .error (.fatal "network")
  ∧ (reserveSheet c1State 7 c1Sheet (.error (.fatal "network"))).2.2.reserveLog
      = [(0, pendingReservation 7 c1Sheet)]
  ∧ (cancelSheet c1StateC 7 c1Sheet c1Json (.error (.fatal "network")) 0).1
      = .error (.fatal "network")
  ∧ (cancelSheet c1StateC 7 c1Sheet c1Json
        (.error (.fatal "network")) 0).2.2.cancelLog
      = [(0, c1Res)] := by
  decide

/-- C1 amended: the pending log entry appended before the HTTP call is
removed after the call returns on the success path only; when the Play call
returns an error the function returns immediately and the entry remains in
the pending log. -/
theorem c1_amended_pending_log
    (st : State) (userID : Nat) (es : EventSheet) (rid num : Nat)
    (e : CheckErr) (jr : JsonReservation) (r : Reservation) (now : Int)
    (hFreshR : ∀ p ∈ st.reserveLog, p.1 ≠ st.nextLogID)
    (hFreshC : ∀ p ∈ st.cancelLog, p.1 ≠ st.nextLogID)
    (hBegin : st.BeginCancelReservation jr.ReservationID = some r) :
    (reserveSheet st userID es (.ok (rid, num))).2.2.reserveLog = st.reserveLog
  ∧ (reserveSheet st userID es (.error e)).2.2.reserveLog
      = st.reserveLog ++ [(st.nextLogID, pendingReservation userID es)]
  ∧ (cancelSheet st userID es jr (.ok ()) now).2.2.cancelLog = st.cancelLog
  ∧ (cancelSheet st userID es jr (.error e) now).2.2.cancelLog
      = st.cancelLog ++ [(st.nextLogID, r)] := by
  have hR : ∀ (a : Nat) (b : Reservation),
      (a, b) ∈ st.reserveLog → ¬a = st.nextLogID :=
    fun a b hab => hFreshR (a, b) hab
  have hC : ∀ (a : Nat) (b : Reservation),
      (a, b) ∈ st.cancelLog → ¬a = st.nextLogID :=
    fun a b hab => hFreshC (a, b) hab
  refine ⟨?_, ?_, ?_, ?_⟩
  · simp only [reserveSheet, State.AppendReserveLog]
    split
    · simp [State.CommitReservation, State.DeleteReserveLog]
      split <;> simp [filter_fresh_append _ _ _ hFreshR] <;> exact hR
    · simp [State.decrRemains, State.CommitReservation, State.DeleteReserveLog]
      split <;> simp [filter_fresh_append _ _ _ hFreshR] <;> exact hR
  · simp [reserveSheet, State.AppendReserveLog]
  · simp only [cancelSheet, hBegin, State.AppendCancelLog]
    split
    · simp [State.DeleteCancelLog, cancelLog_CommitCancelReservation,
        State.CommitCancelReservation, filter_fresh_append _ _ _ hFreshC]
      exact hC
    · simp [State.incrRemains, State.DeleteCancelLog,
        State.CommitCancelReservation, filter_fresh_append _ _ _ hFreshC]
      exact hC
  · simp [cancelSheet, hBegin, State.AppendCancelLog]

/-- Witness for c1_amended_pending_log at a concrete input. -/
theorem c1_amended_pending_log_witness :
    (reserveSheet c1StateC 7 c1Sheet (.ok (9, 12))).2.2.reserveLog
      = c1StateC.reserveLog
  ∧ (cancelSheet c1StateC 7 c1Sheet c1Json
        (.error (.fatal "late")) 0).2.2.cancelLog
      = c1StateC.cancelLog ++ [(c1StateC.nextLogID, c1Res)] := by
  have h := c1_amended_pending_log c1StateC 7 c1Sheet 9 12 (.fatal "late")
    c1Json c1Res 0 (by decide) (by decide) (by decide)
  exact ⟨h.1, h.2.2.2⟩

/-- Witness for c10_login_idempotent at concrete inputs. -/
theorem c10_login_idempotent_witness :
    loginAppUser (.ok ())
        { ID := 1, Nickname := "n", LoginName := "l", Password := "p",
          Status := { Online := true } } =
      (.ok (),
       { ID := 1, Nickname := "n", LoginName := "l", Password := "p",
         Status := { Online := true } }, []) :=
  c10_login_idempotent.1 (.ok ())
    { ID := 1, Nickname := "n", LoginName := "l", Password := "p",
      Status := { Online := true } } rfl
